import Mathlib

/-!
Verification of the emotion-lesson repository: two presentational
components, a styled button family (src/components/Buttons.js) and a
themeable animated sign-up modal (src/components/Modals.js).

Style blocks are embedded as ordered lists of CSS declarations, so the
CSS cascade inside one block (later declaration of the same property
wins) is part of the model.  The react-spring targets of the modal are
embedded as the record passed to useSpring; the frame-by-frame
interpolator itself lives in the react-spring dependency, not in this
repository, and is modelled from the specification where a claim needs
it.
-/

/-- One CSS declaration `prop: value;` inside a style block. -/
structure Decl where
  prop : String
  value : String
deriving DecidableEq, Repr

/-- The value a style block gives a property: within one block the last
declaration of a property wins (CSS source-order cascade). -/
def effectiveValue (block : List Decl) (p : String) : Option String :=
  (block.filter (fun d => d.prop == p)).getLast?.map (fun d => d.value)

/-- One entry of a CSS `transition:` list, e.g. `color 0.2s linear`;
the duration is kept in milliseconds, so 0.2s is 200. -/
structure TransitionEntry where
  prop : String
  durationMs : Nat
  timing : String
deriving DecidableEq, Repr

/-- The two button variants exported by Buttons.js besides the base. -/
inductive Variant
  | primary
  | secondary
deriving DecidableEq, Repr

/-- The style surface of a rendered button: its resting declarations,
its `transition:` list and its `&:hover` block. -/
structure ButtonStyle where
  decls : List Decl
  transitions : List TransitionEntry
  hover : List Decl
deriving DecidableEq, Repr

/-- Buttons.js: the shared base `Button` styled component. -/
def buttonBase : List Decl :=
  [⟨"padding", "12px 24px"⟩,
   ⟨"font-size", "1rem"⟩,
   ⟨"border-radius", "2px"⟩,
   ⟨"min-width", "100px"⟩,
   ⟨"cursor", "pointer"⟩,
   ⟨"font-family", "Menlo, monospace"⟩]

/-- Buttons.js: `PrimaryButton = styled(Button)` and
`SecondaryButton = styled(Button)`.  PrimaryButton adds a red filled
background, no border and white text, with no transition and no hover
block.  SecondaryButton adds a transparent background, a black outline,
`color: white` immediately followed by `color: black`, a 0.2s linear
transition on background-color and color, and a hover block turning the
background red and the text white. -/
def buttonStyle : Variant → ButtonStyle
  | Variant.primary =>
    { decls := buttonBase ++
        [⟨"background-color", "red"⟩,
         ⟨"border", "none"⟩,
         ⟨"color", "white"⟩],
      transitions := [],
      hover := [] }
  | Variant.secondary =>
    { decls := buttonBase ++
        [⟨"background", "none"⟩,
         ⟨"border", "1px solid black"⟩,
         ⟨"color", "white"⟩,
         ⟨"color", "black"⟩],
      transitions :=
        [⟨"background-color", 200, "linear"⟩,
         ⟨"color", 200, "linear"⟩],
      hover :=
        [⟨"background-color", "red"⟩,
         ⟨"color", "white"⟩] }

/-- A color literal counted as light. -/
def isLightColor (c : String) : Bool :=
  c == "white" || c == "#fff" || c == "#ffffff"

/-- A color literal counted as dark. -/
def isDarkColor (c : String) : Bool :=
  c == "black" || c == "#000" || c == "#000000"

/-- A button style responds to hover by transitioning background and
text color over 0.2 seconds (200 ms) with linear easing: its transition
list is exactly `background-color 0.2s linear, color 0.2s linear` and
it has a non-empty hover block. -/
def hoverRespondsWithTransition (b : ButtonStyle) : Bool :=
  b.transitions ==
    [⟨"background-color", 200, "linear"⟩, ⟨"color", 200, "linear"⟩]
  && !(b.hover == [])

/-- The flat theme record the lesson supplies through the
ThemeProvider (the light and dark theme objects of App.js). -/
structure Theme where
  text : String
  background : String
  modalBg : String
  buttonText : String
  buttonTextHover : String
  buttonBorder : String
  buttonBg : String
  buttonBgHover : String
deriving DecidableEq, Repr

/-- The light theme object of the App.js shown in the lesson. -/
def themeLight : Theme :=
  { text := "#000",
    background := "#fff",
    modalBg := "#fff",
    buttonText := "#000",
    buttonTextHover := "#fff",
    buttonBorder := "#000",
    buttonBg := "rgba(0, 0, 0, 0)",
    buttonBgHover := "rgba(0, 0, 0, 1)" }

/-- The dark theme object of the App.js shown in the lesson. -/
def themeDark : Theme :=
  { text := "#fff",
    background := "#121212",
    modalBg := "#202023",
    buttonText := "#fff",
    buttonTextHover := "#000",
    buttonBorder := "#fff",
    buttonBg := "rgba(255, 255, 255, 0)",
    buttonBgHover := "rgba(255, 255, 255, 1)" }

/-- A styled component receives the ambient theme; the template
literals of Buttons.js interpolate no theme key, so the rendered button
style is the same for every theme. -/
def buttonRendered (v : Variant) (_theme : Theme) : ButtonStyle :=
  buttonStyle v

/-- A CSS transform value as written in Modals.js: either the literal
`translateY(0)` or a percentage translation `translateY(p%)`, the
percentage being relative to the height of the element itself. -/
inductive CssTransform
  | translateYZero
  | translateYPercent (p : ℚ)
deriving DecidableEq, Repr

/-- The vertical offset a transform denotes, as a percentage of the
height of the element itself (`translateY(0)` denotes 0). -/
def verticalOffsetPercent : CssTransform → ℚ
  | CssTransform.translateYZero => 0
  | CssTransform.translateYPercent p => p

/-- The record handed to useSpring: an opacity target and a transform
target. -/
structure SpringValues where
  opacity : ℚ
  transform : CssTransform
deriving DecidableEq, Repr

/-- Modals.js: the useSpring argument inside SignUpModal.
`opacity: props.showModal ? 1 : 0` and
`transform: props.showModal ? translateY(0) : translateY(-200%)`. -/
def signUpModalSpring (showModal : Bool) : SpringValues :=
  { opacity := if showModal then 1 else 0,
    transform :=
      if showModal then CssTransform.translateYZero
      else CssTransform.translateYPercent (-200) }

/-- Modals.js: the ModalWrapper styled block; its background-color and
color interpolate the modalBg and text keys of the theme, the rest are
literals. -/
def modalWrapperDecls (theme : Theme) : List Decl :=
  [⟨"width", "800px"⟩,
   ⟨"height", "550px"⟩,
   ⟨"box-shadow", "0 5px 16px rgba(0, 0, 0, 0.2)"⟩,
   ⟨"background-color", theme.modalBg⟩,
   ⟨"color", theme.text⟩,
   ⟨"display", "flex"⟩,
   ⟨"flex-direction", "column"⟩,
   ⟨"justify-content", "center"⟩,
   ⟨"align-items", "center"⟩,
   ⟨"position", "relative"⟩,
   ⟨"border-radius", "2px"⟩,
   ⟨"font-family", "Menlo, monospace"⟩]

/-- The opaque asset handle imported from ../assets/signup.svg. -/
def SignUpAsset : String := "../assets/signup.svg"

/-- The opaque asset handle imported from ../assets/close-icon.svg. -/
def CloseIconAsset : String := "../assets/close-icon.svg"

/-- One child element of the rendered modal, in JSX order. -/
inductive ModalChild
  | image (src alt : String)
  | signUpHeader (txt : String)
  | signUpText (txt : String)
  | primaryButtonChild (lbl : String)
  | closeModalButton (iconSrc iconAlt : String)
deriving DecidableEq, Repr

/-- The props SignUpModal receives: the externally owned visibility
flag, the setter owned by the parent (optional, since a caller may omit
it; only its presence and the argument the modal passes matter here)
and the ambient theme. -/
structure SignUpModalProps where
  showModal : Bool
  setShowModal : Option (Bool → Bool)
  theme : Theme

/-- What one render of SignUpModal produces: the spring style applied
to the wrapper, the themed declarations of the wrapper itself, and the
child elements. -/
structure RenderedModal where
  spring : SpringValues
  wrapper : List Decl
  children : List ModalChild
deriving DecidableEq, Repr

/-- Modals.js: the body of SignUpModal.  The spring targets depend only
on props.showModal; the wrapper declarations only on the theme; the
children are fixed JSX with no dependence on any prop.  The component
calls no state hook of its own, so the render is a pure function of the
props. -/
def renderSignUpModal (p : SignUpModalProps) : RenderedModal :=
  { spring := signUpModalSpring p.showModal,
    wrapper := modalWrapperDecls p.theme,
    children :=
      [ModalChild.image SignUpAsset "Sign Up!",
       ModalChild.signUpHeader "Sign Up!",
       ModalChild.signUpText "Sign up today to get access to cool things!",
       ModalChild.primaryButtonChild "Submit",
       ModalChild.closeModalButton CloseIconAsset "Close"] }

/-- An observable effect the modal can cause: invoking the supplied
setShowModal callback with an argument, or writing state the modal
itself owns (the source declares no such state, so no trace below
contains this effect). -/
inductive ModalEffect
  | invokeSetShowModal (arg : Bool)
  | writeModalOwnedState
deriving DecidableEq, Repr

/-- Modals.js: the onClick handler of CloseModalButton is
`() => props.setShowModal(false)`: one activation performs exactly one
callback invocation, with argument false. -/
def closeControlClickTrace : List ModalEffect :=
  [ModalEffect.invokeSetShowModal false]

/-- The effect trace of n successive activations of the close
control. -/
def closeControlActivations : Nat → List ModalEffect
  | 0 => []
  | n + 1 => closeControlClickTrace ++ closeControlActivations n

/-- Modals.js: evaluating the close handler when the setShowModal prop
may be absent.  JavaScript evaluates `props.setShowModal(false)`
unguarded, so an absent callback raises a TypeError instead of being a
no-op. -/
def closeControlOnClick (hasSetShowModal : Bool) :
    Except String (List ModalEffect) :=
  if hasSetShowModal then Except.ok closeControlClickTrace
  else Except.error "TypeError: props.setShowModal is not a function"

/-- Modelled from the spec: the frame-by-frame interpolator is the
useSpring hook of react-spring, a dependency whose code is not part of
this repository.  Per the specification, each frame tick advances the
current value toward the target asymptotically and continuously; one
tick moves the current value a fraction k (0 ≤ k ≤ 1) of the remaining
distance to the target. -/
def springStep (k current target : ℚ) : ℚ :=
  current + k * (target - current)

/-- Modelled from the spec: the sampled opacity values obtained by
starting at `cur` and, for each frame, reading the visibility flag the
parent holds at that frame (arbitrary rapid toggles allowed) and
advancing one interpolation tick toward the opacity target of that
frame. -/
def opacitySamples (k : ℚ) : ℚ → List Bool → List ℚ
  | cur, [] => [cur]
  | cur, b :: rest =>
    cur :: opacitySamples k (springStep k cur (signUpModalSpring b).opacity) rest

/-- One interpolation tick keeps the value inside the unit interval
whenever the blend factor and the target both lie inside it. -/
theorem springStep_unit {k c t : ℚ} (hk0 : 0 ≤ k) (hk1 : k ≤ 1)
    (hc0 : 0 ≤ c) (hc1 : c ≤ 1) (ht0 : 0 ≤ t) (ht1 : t ≤ 1) :
    0 ≤ springStep k c t ∧ springStep k c t ≤ 1 := by
  unfold springStep
  constructor
  · nlinarith [mul_nonneg hk0 ht0, mul_nonneg (sub_nonneg.mpr hk1) hc0]
  · nlinarith [mul_nonneg hk0 (sub_nonneg.mpr ht1),
      mul_nonneg (sub_nonneg.mpr hk1) (sub_nonneg.mpr hc1)]

/-- Claim C1: for every boolean value of the visibility flag, the
spring targets of the modal are opacity 1 with vertical translation 0
when the flag is true, and opacity 0 with vertical translation -200%
of the height of the modal itself when the flag is false. -/
theorem signUpModal_spring_targets :
    (signUpModalSpring true).opacity = 1
    ∧ verticalOffsetPercent (signUpModalSpring true).transform = 0
    ∧ (signUpModalSpring false).opacity = 0
    ∧ verticalOffsetPercent (signUpModalSpring false).transform = -200 :=
  ⟨rfl, rfl, rfl, rfl⟩

/-- Claim C2: n activations of the close control produce exactly n
invocations of the supplied close callback, each with argument false,
and no write to any state the modal itself owns. -/
theorem closeControl_one_invocation_per_activation (n : Nat) :
    closeControlActivations n =
      List.replicate n (ModalEffect.invokeSetShowModal false)
    ∧ (closeControlActivations n).count ModalEffect.writeModalOwnedState = 0 := by
  have h : closeControlActivations n =
      List.replicate n (ModalEffect.invokeSetShowModal false) := by
    induction n with
    | zero => rfl
    | succ m ih =>
      simp [closeControlActivations, closeControlClickTrace, ih,
        List.replicate_succ]
  refine ⟨h, ?_⟩
  rw [h]
  simp [List.count_replicate]

/-- Claim C3: the code evaluated at the failing input.  When the
setShowModal prop is absent, activating the close control raises a
TypeError rather than being a no-op; when it is present, the
activation succeeds with the single callback invocation. -/
theorem closeControl_missing_callback_raises :
    closeControlOnClick false =
      Except.error "TypeError: props.setShowModal is not a function"
    ∧ closeControlOnClick true =
      Except.ok [ModalEffect.invokeSetShowModal false] :=
  ⟨rfl, rfl⟩

/-- Claim C4: for every sequence of per-frame visibility flags,
including rapid toggles before the interpolation settles, every
sampled opacity value stays inside the closed interval from 0 to 1,
provided the blend factor lies in that interval and the starting value
does too. -/
theorem opacitySamples_within_unit_interval (k : ℚ) (flags : List Bool) :
    0 ≤ k → k ≤ 1 → ∀ cur : ℚ, 0 ≤ cur → cur ≤ 1 →
      ∀ x ∈ opacitySamples k cur flags, 0 ≤ x ∧ x ≤ 1 := by
  intro hk0 hk1
  induction flags with
  | nil =>
    intro cur h0 h1 x hx
    simp [opacitySamples] at hx
    subst hx
    exact ⟨h0, h1⟩
  | cons b rest ih =>
    intro cur h0 h1 x hx
    simp [opacitySamples] at hx
    rcases hx with hx | hx
    · subst hx
      exact ⟨h0, h1⟩
    · have ht : 0 ≤ (signUpModalSpring b).opacity
          ∧ (signUpModalSpring b).opacity ≤ 1 := by
        cases b <;> norm_num [signUpModalSpring]
      have hs := springStep_unit hk0 hk1 h0 h1 ht.1 ht.2
      exact ih _ hs.1 hs.2 x hx

/-- Witness for claim C4: with blend factor one half, starting at rest
opacity 0 and toggling false, true, false, the intermediate sample one
half occurs and lies inside the unit interval. -/
theorem opacitySamples_within_unit_interval_app :
    ((1 : ℚ)/2) ∈ opacitySamples (1/2) 0 [false, true, false]
    ∧ 0 ≤ ((1 : ℚ)/2) ∧ ((1 : ℚ)/2) ≤ 1 := by
  have hmem : ((1 : ℚ)/2) ∈ opacitySamples (1/2) 0 [false, true, false] := by
    norm_num [opacitySamples, springStep, signUpModalSpring]
  have h := opacitySamples_within_unit_interval (1/2) [false, true, false]
    (by norm_num) (by norm_num) 0 (by norm_num) (by norm_num) ((1 : ℚ)/2) hmem
  exact ⟨hmem, h.1, h.2⟩

/-- Claim C5 counterexample: at the concrete variant primary, the
rendered control declares no transition and no hover block, so the
claim that every variant responds to hover with a 0.2s linear
background and text color transition is false. -/
theorem primaryButton_fails_hover_transition_claim :
    hoverRespondsWithTransition (buttonStyle Variant.primary) = false :=
  rfl

/-- Claim C5 (amended): only the secondary variant responds to hover by
transitioning background and text color over 0.2 seconds with linear
easing; the primary variant declares no transition and no hover
styles. -/
theorem hover_transition_only_secondary :
    hoverRespondsWithTransition (buttonStyle Variant.secondary) = true
    ∧ (buttonStyle Variant.primary).transitions = []
    ∧ (buttonStyle Variant.primary).hover = [] :=
  ⟨rfl, rfl, rfl⟩

/-- Claim C6: variant selection yields the documented color roles: the
primary variant is a red filled background with white (light) text; the
secondary variant has a transparent background with a black outline and
black (dark) resting text, and on hover inverts to a red filled
background with white (light) text. -/
theorem button_variant_color_roles :
    effectiveValue (buttonStyle Variant.primary).decls "background-color"
      = some "red"
    ∧ effectiveValue (buttonStyle Variant.primary).decls "color"
      = some "white"
    ∧ isLightColor "white" = true
    ∧ effectiveValue (buttonStyle Variant.secondary).decls "background"
      = some "none"
    ∧ effectiveValue (buttonStyle Variant.secondary).decls "border"
      = some "1px solid black"
    ∧ effectiveValue (buttonStyle Variant.secondary).decls "color"
      = some "black"
    ∧ isDarkColor "black" = true
    ∧ effectiveValue (buttonStyle Variant.secondary).hover "background-color"
      = some "red"
    ∧ effectiveValue (buttonStyle Variant.secondary).hover "color"
      = some "white"
    ∧ isLightColor "white" = true :=
  ⟨rfl, rfl, rfl, rfl, rfl, rfl, rfl, rfl, rfl, rfl⟩

/-- Claim C7 counterexample: the two shipped themes differ on both
recognized keys, yet the primary button renders identically under
them, and its resting text color is the literal white rather than the
text key of the light theme: the button set does not consume the theme
for its color decisions. -/
theorem buttonSet_ignores_theme_cex :
    buttonRendered Variant.primary themeLight
      = buttonRendered Variant.primary themeDark
    ∧ (themeLight.text == themeDark.text) = false
    ∧ (themeLight.modalBg == themeDark.modalBg) = false
    ∧ effectiveValue (buttonRendered Variant.primary themeLight).decls "color"
      = some "white"
    ∧ (themeLight.text == "white") = false :=
  ⟨rfl, rfl, rfl, rfl, rfl⟩

/-- Claim C7 (amended): the modal consumes the theme read-only for its
color decisions through the keys modalBg (surface background) and text
(text color), and its wrapper style is determined by those two keys;
the button set never reads the theme, its colors being hardcoded
literals; neither component modifies the theme (all embedded renders
are pure functions of the theme). -/
theorem theme_consumption_amended :
    (∀ t : Theme,
      effectiveValue (modalWrapperDecls t) "background-color" = some t.modalBg
      ∧ effectiveValue (modalWrapperDecls t) "color" = some t.text)
    ∧ (∀ t₁ t₂ : Theme, t₁.text = t₂.text → t₁.modalBg = t₂.modalBg →
        modalWrapperDecls t₁ = modalWrapperDecls t₂)
    ∧ (∀ v : Variant, ∀ t₁ t₂ : Theme,
        buttonRendered v t₁ = buttonRendered v t₂) := by
  refine ⟨fun t => ⟨rfl, rfl⟩, fun t₁ t₂ h₁ h₂ => ?_, fun v t₁ t₂ => rfl⟩
  simp [modalWrapperDecls, h₁, h₂]

/-- Witness for claim C7 (amended): two themes agreeing on text and
modalBg but differing elsewhere give the same wrapper declarations, and
the primary button is identical under the two shipped themes. -/
theorem theme_consumption_amended_app :
    modalWrapperDecls themeLight
      = modalWrapperDecls { themeLight with background := "#eee" }
    ∧ buttonRendered Variant.primary themeLight
      = buttonRendered Variant.primary themeDark :=
  ⟨theme_consumption_amended.2.1 themeLight
      { themeLight with background := "#eee" } rfl rfl,
    theme_consumption_amended.2.2 Variant.primary themeLight themeDark⟩

/-- Claim C8: the modal is stateless and deterministic: any two renders
agreeing on the visibility flag and the theme produce identical output
(spring targets, wrapper style and children), whatever the remaining
props such as the callback are. -/
theorem renderSignUpModal_deterministic (p q : SignUpModalProps)
    (hflag : p.showModal = q.showModal) (htheme : p.theme = q.theme) :
    renderSignUpModal p = renderSignUpModal q := by
  simp [renderSignUpModal, hflag, htheme]

/-- Witness for claim C8: two concrete prop records with the same flag
and theme but different callbacks render identically. -/
theorem renderSignUpModal_deterministic_app :
    renderSignUpModal ⟨true, none, themeLight⟩
      = renderSignUpModal ⟨true, some (fun _ => false), themeLight⟩ :=
  renderSignUpModal_deterministic ⟨true, none, themeLight⟩
    ⟨true, some (fun _ => false), themeLight⟩ rfl rfl

/-- Claim C9: the secondary button declares color white immediately
followed by color black, the later declaration wins, and so its
effective resting text color is black, which is not white. -/
theorem secondaryButton_effective_color_black :
    (buttonStyle Variant.secondary).decls.filter (fun d => d.prop == "color")
      = [⟨"color", "white"⟩, ⟨"color", "black"⟩]
    ∧ effectiveValue (buttonStyle Variant.secondary).decls "color"
      = some "black"
    ∧ ("black" == "white") = false :=
  ⟨rfl, rfl, rfl⟩

/-- Claim C10: every render of the modal has exactly the same five
children in the same order, the sign-up illustration image, the
heading, the body text, the Submit primary button and the close
control, whatever the visibility flag, the callback and the theme
are. -/
theorem signUpModal_children_fixed :
    (∀ p : SignUpModalProps, (renderSignUpModal p).children =
      [ModalChild.image SignUpAsset "Sign Up!",
       ModalChild.signUpHeader "Sign Up!",
       ModalChild.signUpText "Sign up today to get access to cool things!",
       ModalChild.primaryButtonChild "Submit",
       ModalChild.closeModalButton CloseIconAsset "Close"])
    ∧ ∀ p q : SignUpModalProps,
        (renderSignUpModal p).children = (renderSignUpModal q).children :=
  ⟨fun _ => rfl, fun _ _ => rfl⟩
